import Mathlib

/-!
Shallow embedding of `src/translator/app.py` (Tanyashri/Translator), a Flask
gateway that validates input, delegates to an external translation capability
(googletrans) and an external speech-synthesis capability (gTTS), and returns
JSON responses.

External dependencies are modelled as oracles:
  * translation: `String → Except String String` (the argument text; `.error`
    models a raised exception with message, `.ok` the `.text` of the result);
  * synthesis: `String → String → Except String Unit` (text, lang; `.error`
    models a raised exception during `gTTS(...).save(...)`).

Each handler returns its JSON response together with the trace of outbound
calls it made and the list of audio files it wrote, so that claims about
"no external call is made" and "synthesis is attempted" are statable.
-/

set_option maxRecDepth 100000

namespace Translator

/-- Python `str.strip()`: remove leading and trailing whitespace characters. -/
def strip (s : String) : String :=
  ⟨((s.data.dropWhile Char.isWhitespace).reverse.dropWhile Char.isWhitespace).reverse⟩

/-- One entry of the batch result sequence: the dict
`{'english': text, 'kannada': translated.text}` appended in `translate_batch`. -/
structure TransResult where
  english : String
  kannada : String
deriving DecidableEq, Repr

/-- An outbound call to an external dependency: `translator.translate(text, src='en', dest='kn')`
or `gTTS(text=..., lang=...).save(...)`. -/
inductive Call where
  | translate (text : String)
  | synth (text lang : String)
deriving DecidableEq, Repr

/-- Response of the `/api/translate` endpoint (`translate_text`): either the
200 success JSON with its three data fields, or an error JSON with its HTTP status. -/
inductive SingleResponse where
  | ok (english kannada audio_url : String)
  | failure (status : Nat) (error : String)
deriving DecidableEq, Repr

/-- HTTP status of a `SingleResponse` (the code pairs every success body with 200). -/
def SingleResponse.status : SingleResponse → Nat
  | .ok _ _ _ => 200
  | .failure s _ => s

/-- The `success` field of the JSON body of a `SingleResponse`. -/
def SingleResponse.success : SingleResponse → Bool
  | .ok _ _ _ => true
  | .failure _ _ => false

/-- Response of the `/api/voice-translate` endpoint (`voice_translate`). -/
inductive VoiceResponse where
  | ok (english kannada english_audio_url kannada_audio_url : String)
  | failure (status : Nat) (error : String)
deriving DecidableEq, Repr

/-- HTTP status of a `VoiceResponse`. -/
def VoiceResponse.status : VoiceResponse → Nat
  | .ok _ _ _ _ => 200
  | .failure s _ => s

/-- The `success` field of the JSON body of a `VoiceResponse`. -/
def VoiceResponse.success : VoiceResponse → Bool
  | .ok _ _ _ _ => true
  | .failure _ _ => false

/-- Response of the `/api/translate-batch` endpoint (`translate_batch`). -/
inductive BatchResponse where
  | ok (translations : List TransResult)
  | failure (status : Nat) (error : String)
deriving DecidableEq, Repr

/-- HTTP status of a `BatchResponse`. -/
def BatchResponse.status : BatchResponse → Nat
  | .ok _ => 200
  | .failure s _ => s

/-- The `success` field of the JSON body of a `BatchResponse`. -/
def BatchResponse.success : BatchResponse → Bool
  | .ok _ => true
  | .failure _ _ => false

/-- The external translation capability (`translator.translate(·, src='en', dest='kn').text`). -/
abbrev TranslateDep := String → Except String String

/-- The external speech-synthesis capability (`gTTS(text, lang).save(path)`). -/
abbrev SynthDep := String → String → Except String Unit

/-- What a handler run produces: its JSON response, the ordered trace of
outbound calls to the external dependencies, and the audio files written. -/
structure Outcome (ρ : Type) where
  resp : ρ
  calls : List Call
  writes : List String
deriving DecidableEq, Repr

/-- Embedding of the `translate_text` handler (POST `/api/translate`):
strip, validate emptiness then length, translate, attempt Kannada audio
synthesis with the failure swallowed, and return the fixed audio URL. -/
def translate_text (tr : TranslateDep) (tts : SynthDep) (text : String) :
    Outcome SingleResponse :=
  let english_text := strip text
  if english_text = "" then
    ⟨.failure 400 "Please enter English text to translate", [], []⟩
  else if english_text.length > 500 then
    ⟨.failure 400 "Text is too long. Maximum 500 characters allowed.", [], []⟩
  else
    match tr english_text with
    | .error e =>
        ⟨.failure 500 ("Translation failed: " ++ e), [.translate english_text], []⟩
    | .ok kannada_text =>
        let writes :=
          match tts kannada_text "kn" with
          | .ok _ => ["output.mp3"]
          | .error _ => []
        ⟨.ok english_text kannada_text "/static/output.mp3",
         [.translate english_text, .synth kannada_text "kn"], writes⟩

/-- Embedding of the `voice_translate` handler (POST `/api/voice-translate`):
strip, validate, translate, then attempt English audio and Kannada audio in
turn, each failure swallowed independently, and return both fixed URLs. -/
def voice_translate (tr : TranslateDep) (tts : SynthDep) (text : String) :
    Outcome VoiceResponse :=
  let english_text := strip text
  if english_text = "" then
    ⟨.failure 400 "Please enter English text to translate", [], []⟩
  else if english_text.length > 500 then
    ⟨.failure 400 "Text is too long. Maximum 500 characters allowed.", [], []⟩
  else
    match tr english_text with
    | .error e =>
        ⟨.failure 500 ("Voice translation failed: " ++ e), [.translate english_text], []⟩
    | .ok kannada_text =>
        let enWrites :=
          match tts english_text "en" with
          | .ok _ => ["english_audio.mp3"]
          | .error _ => []
        let knWrites :=
          match tts kannada_text "kn" with
          | .ok _ => ["kannada_audio.mp3"]
          | .error _ => []
        ⟨.ok english_text kannada_text "/static/english_audio.mp3" "/static/kannada_audio.mp3",
         [.translate english_text, .synth english_text "en", .synth kannada_text "kn"],
         enWrites ++ knWrites⟩

/-- An element of the `texts` JSON array: either a Python string, or a value
without a `.strip` method, whose `.strip()` raises an `AttributeError` with
the recorded message. -/
inductive BatchItem where
  | str (s : String)
  | nonStr (err : String)
deriving DecidableEq, Repr

/-- The value found at key `texts` of the batch request body, as
`data.get('texts', [])` sees it: a JSON array, some non-array value, or
absent (in which case the default `[]` is used). -/
inductive TextsVal where
  | list (items : List BatchItem)
  | nonList
  | missing
deriving DecidableEq, Repr

/-- The `for text in texts` loop of `translate_batch`: skip entries that are
empty after stripping, translate the others (passing the original, unstripped
text), and let any raised exception abort the loop. Returns the loop result
together with the translation calls that were issued before it ended. -/
def batchLoop (tr : TranslateDep) :
    List BatchItem → Except String (List TransResult) × List Call
  | [] => (.ok [], [])
  | .nonStr e :: _ => (.error e, [])
  | .str s :: rest =>
      if strip s = "" then
        batchLoop tr rest
      else
        match tr s with
        | .error e => (.error e, [.translate s])
        | .ok k =>
            let out := batchLoop tr rest
            (out.1.map fun l => ⟨s, k⟩ :: l, .translate s :: out.2)

/-- Embedding of the `translate_batch` handler (POST `/api/translate-batch`):
reject a falsy or non-list `texts` value with a 400, run the loop, and turn a
raised exception into the single 500 failure report (the partial
`translations` list built so far is discarded). -/
def translate_batch (tr : TranslateDep) (texts : TextsVal) :
    BatchResponse × List Call :=
  match texts with
  | .list items =>
      if items = [] then
        (.failure 400 "Please provide a list of texts", [])
      else
        match batchLoop tr items with
        | (.ok translations, calls) => (.ok translations, calls)
        | (.error e, calls) =>
            (.failure 500 ("Batch translation failed: " ++ e), calls)
  | .nonList => (.failure 400 "Please provide a list of texts", [])
  | .missing => (.failure 400 "Please provide a list of texts", [])

/-- A 501-character string, used to exercise the length validation. -/
def longText : String := ⟨List.replicate 501 'a'⟩

/-- Lifts a total translation function into an always-succeeding oracle. -/
def okDep (trf : String → String) : TranslateDep := fun s => .ok (trf s)

/-- When every translation succeeds, the loop keeps exactly the entries that
are non-blank after stripping, in input order, and issues one call each. -/
lemma batchLoop_all_ok (trf : String → String) (items : List String) :
    batchLoop (okDep trf) (items.map .str) =
      (.ok ((items.filter fun s => strip s ≠ "").map fun s => ⟨s, trf s⟩),
       (items.filter fun s => strip s ≠ "").map fun s => .translate s) := by
  induction items with
  | nil => rfl
  | cons s rest ih =>
    by_cases hs : strip s = "" <;>
      simp [batchLoop, okDep, hs, List.filter_cons, ih, Except.map]

/-- When every entry is blank after stripping, the loop does nothing. -/
lemma batchLoop_all_blank (tr : TranslateDep) (items : List String)
    (hall : ∀ s ∈ items, strip s = "") :
    batchLoop tr (items.map .str) = (.ok [], []) := by
  induction items with
  | nil => rfl
  | cons s rest ih =>
    have h1 : strip s = "" := hall s (by simp)
    have h2 : ∀ x ∈ rest, strip x = "" := fun x hx => hall x (by simp [hx])
    simp [batchLoop, h1, ih h2]

/-- When the translations of `good` succeed and the one of `bad` raises, the
loop ends in that exception, discarding the partial result list but keeping
the calls already issued. -/
lemma batchLoop_ok_then_fail (tr : TranslateDep) (trf : String → String)
    (good : List String) (bad : String) (rest : List BatchItem) (e : String)
    (hgood : ∀ s ∈ good, tr s = .ok (trf s))
    (hbad : tr bad = .error e) (hb : strip bad ≠ "") :
    batchLoop tr (good.map .str ++ .str bad :: rest) =
      (.error e,
       ((good.filter fun s => strip s ≠ "").map fun s => .translate s) ++
         [.translate bad]) := by
  induction good with
  | nil => simp [batchLoop, hb, hbad]
  | cons s gs ih =>
    have hs : tr s = .ok (trf s) := hgood s (by simp)
    have hrec := ih (fun x hx => hgood x (by simp [hx]))
    by_cases h1 : strip s = "" <;>
      simp [batchLoop, h1, hs, List.filter_cons, hrec, Except.map]

/-- When the translations of `good` succeed and a non-string entry follows,
the loop ends in the `AttributeError` of its `.strip()` call. -/
lemma batchLoop_nonstr (tr : TranslateDep) (trf : String → String)
    (good : List String) (e : String) (rest : List BatchItem)
    (hgood : ∀ s ∈ good, tr s = .ok (trf s)) :
    batchLoop tr (good.map .str ++ .nonStr e :: rest) =
      (.error e, (good.filter fun s => strip s ≠ "").map fun s => .translate s) := by
  induction good with
  | nil => simp [batchLoop]
  | cons s gs ih =>
    have hs : tr s = .ok (trf s) := hgood s (by simp)
    have hrec := ih (fun x hx => hgood x (by simp [hx]))
    by_cases h1 : strip s = "" <;>
      simp [batchLoop, h1, hs, List.filter_cons, hrec, Except.map]

/-- C5: for every input text that is empty or consists only of whitespace,
both `translate_text` (translateSingle) and `voice_translate`
(translateWithVoice) return the 400 validation failure with `success` false,
and make no external calls (empty call trace, nothing written). -/
theorem blank_text_rejected_no_calls (tr : TranslateDep) (tts : SynthDep)
    (text : String) (h : strip text = "") :
    translate_text tr tts text =
      ⟨.failure 400 "Please enter English text to translate", [], []⟩ ∧
    voice_translate tr tts text =
      ⟨.failure 400 "Please enter English text to translate", [], []⟩ ∧
    (translate_text tr tts text).resp.success = false ∧
    (voice_translate tr tts text).resp.success = false := by
  have h1 : translate_text tr tts text =
      ⟨.failure 400 "Please enter English text to translate", [], []⟩ := by
    simp [translate_text, h]
  have h2 : voice_translate tr tts text =
      ⟨.failure 400 "Please enter English text to translate", [], []⟩ := by
    simp [voice_translate, h]
  exact ⟨h1, h2, by rw [h1]; rfl, by rw [h2]; rfl⟩

/-- C5 witness: the all-whitespace text `"  "` with concrete dependencies. -/
theorem blank_text_rejected_no_calls_witness :
    strip "  " = "" ∧
    translate_text (okDep fun s => "K" ++ s) (fun _ _ => .ok ()) "  " =
      ⟨.failure 400 "Please enter English text to translate", [], []⟩ := by
  have h := blank_text_rejected_no_calls (okDep fun s => "K" ++ s)
    (fun _ _ => .ok ()) "  " (by decide)
  exact ⟨by decide, h.1⟩

/-- C6: for every input whose stripped length exceeds 500, both
`translate_text` and `voice_translate` return the 400 too-long validation
failure with no external calls; and any stripped text of length exactly 500
passes both validations, reaching the translation call in either handler. -/
theorem long_text_rejected_with_500_boundary (tr : TranslateDep)
    (tts : SynthDep) (text : String) (h : (strip text).length > 500) :
    translate_text tr tts text =
      ⟨.failure 400 "Text is too long. Maximum 500 characters allowed.", [], []⟩ ∧
    voice_translate tr tts text =
      ⟨.failure 400 "Text is too long. Maximum 500 characters allowed.", [], []⟩ ∧
    (∀ (tr2 : TranslateDep) (tts2 : SynthDep) (txt : String),
      strip txt ≠ "" → (strip txt).length = 500 →
      Call.translate (strip txt) ∈ (translate_text tr2 tts2 txt).calls ∧
      Call.translate (strip txt) ∈ (voice_translate tr2 tts2 txt).calls) := by
  have hne : strip text ≠ "" := by
    intro he
    rw [he] at h
    simp at h
  refine ⟨by simp [translate_text, hne, h], by simp [voice_translate, hne, h], ?_⟩
  intro tr2 tts2 txt h1 h2
  have h3 : ¬ (strip txt).length > 500 := by omega
  constructor
  · cases htr : tr2 (strip txt) <;> simp [translate_text, h1, h3, htr]
  · cases htr : tr2 (strip txt) <;> simp [voice_translate, h1, h3, htr]

/-- C6 witness: a 501-character text is rejected by both handlers. -/
theorem long_text_rejected_with_500_boundary_witness :
    (strip longText).length > 500 ∧
    translate_text (okDep fun s => "K" ++ s) (fun _ _ => .ok ()) longText =
      ⟨.failure 400 "Text is too long. Maximum 500 characters allowed.", [], []⟩ := by
  have h := long_text_rejected_with_500_boundary (okDep fun s => "K" ++ s)
    (fun _ _ => .ok ()) longText (by decide)
  exact ⟨by decide, h.1⟩

/-- C7: for an empty `texts` list, a missing `texts` field (defaulting to the
empty list) and a non-list `texts` value, `translate_batch` returns the 400
validation failure with `success` false and makes no external call. -/
theorem batch_invalid_texts_rejected (tr : TranslateDep) :
    translate_batch tr (.list []) =
      (.failure 400 "Please provide a list of texts", []) ∧
    translate_batch tr .missing =
      (.failure 400 "Please provide a list of texts", []) ∧
    translate_batch tr .nonList =
      (.failure 400 "Please provide a list of texts", []) ∧
    (translate_batch tr (.list [])).1.success = false := by
  refine ⟨by simp [translate_batch], rfl, rfl, by rfl⟩

/-- C7 witness: a concrete always-succeeding oracle still yields the 400. -/
theorem batch_invalid_texts_rejected_witness :
    translate_batch (okDep fun s => "K" ++ s) (.list []) =
      (.failure 400 "Please provide a list of texts", []) ∧
    translate_batch (okDep fun s => "K" ++ s) .nonList =
      (.failure 400 "Please provide a list of texts", []) := by
  have h := batch_invalid_texts_rejected (okDep fun s => "K" ++ s)
  exact ⟨h.1, h.2.2.1⟩

/-- C2: when the translation succeeds but the synthesis raises,
`translate_text` still returns the 200 success response with the Kannada
text and the fixed `audio_url` `/static/output.mp3`; the synthesis was
attempted (it is in the call trace) but wrote no file, so the URL may point
at a stale artifact. -/
theorem single_success_despite_synth_failure (tr : TranslateDep)
    (tts : SynthDep) (text k em : String)
    (hne : strip text ≠ "") (hlen : (strip text).length ≤ 500)
    (htr : tr (strip text) = .ok k) (hsynth : tts k "kn" = .error em) :
    translate_text tr tts text =
      ⟨.ok (strip text) k "/static/output.mp3",
       [.translate (strip text), .synth k "kn"], []⟩ ∧
    (translate_text tr tts text).resp.status = 200 ∧
    (translate_text tr tts text).resp.success = true := by
  have h5 : ¬ (strip text).length > 500 := by omega
  have h1 : translate_text tr tts text =
      ⟨.ok (strip text) k "/static/output.mp3",
       [.translate (strip text), .synth k "kn"], []⟩ := by
    simp [translate_text, hne, h5, htr, hsynth]
  exact ⟨h1, by rw [h1]; rfl, by rw [h1]; rfl⟩

/-- C2 witness: `"Hello"` with a succeeding translator and a failing
synthesizer still yields the 200 success with the fixed audio URL. -/
theorem single_success_despite_synth_failure_witness :
    strip "Hello" ≠ "" ∧
    translate_text (okDep fun s => "K" ++ s) (fun _ _ => .error "boom") "Hello" =
      ⟨.ok "Hello" "KHello" "/static/output.mp3",
       [.translate "Hello", .synth "KHello" "kn"], []⟩ := by
  have h := single_success_despite_synth_failure (okDep fun s => "K" ++ s)
    (fun _ _ => .error "boom") "Hello" "KHello" "boom"
    (by decide) (by decide) (by rfl) (by rfl)
  exact ⟨by decide, h.1⟩

/-- C3: when the translation raises, `translate_text` returns the 500
failure whose message includes the underlying one, having called only the
translator; and in general a synthesis call appears in the trace of
`translate_text` only when the translation returned exactly its text, so
synthesis happens only after a successful translation. -/
theorem single_translation_failure_no_synth (tr : TranslateDep)
    (tts : SynthDep) (text e : String)
    (hne : strip text ≠ "") (hlen : (strip text).length ≤ 500)
    (htr : tr (strip text) = .error e) :
    translate_text tr tts text =
      ⟨.failure 500 ("Translation failed: " ++ e),
       [.translate (strip text)], []⟩ ∧
    (translate_text tr tts text).resp.success = false ∧
    (∀ (tr2 : TranslateDep) (tts2 : SynthDep) (txt t l : String),
      Call.synth t l ∈ (translate_text tr2 tts2 txt).calls →
      tr2 (strip txt) = .ok t ∧ l = "kn") := by
  have h5 : ¬ (strip text).length > 500 := by omega
  have h1 : translate_text tr tts text =
      ⟨.failure 500 ("Translation failed: " ++ e),
       [.translate (strip text)], []⟩ := by
    simp [translate_text, hne, h5, htr]
  refine ⟨h1, by rw [h1]; rfl, ?_⟩
  intro tr2 tts2 txt t l hmem
  by_cases h1 : strip txt = ""
  · simp [translate_text, h1] at hmem
  by_cases h2 : (strip txt).length > 500
  · simp [translate_text, h1, h2] at hmem
  cases htr2 : tr2 (strip txt) with
  | error e2 => simp [translate_text, h1, h2, htr2] at hmem
  | ok k2 =>
    simp [translate_text, h1, h2, htr2] at hmem
    obtain ⟨ht, hl⟩ := hmem
    subst ht hl
    exact ⟨rfl, rfl⟩

/-- C3 witness: a failing translator on `"Hello"` yields the 500 failure
with the message included and no synthesis call. -/
theorem single_translation_failure_no_synth_witness :
    translate_text (fun _ => .error "network down") (fun _ _ => .ok ()) "Hello" =
      ⟨.failure 500 "Translation failed: network down",
       [.translate "Hello"], []⟩ := by
  have h := single_translation_failure_no_synth (fun _ => .error "network down")
    (fun _ _ => .ok ()) "Hello" "network down" (by decide) (by decide) (by rfl)
  exact h.1

/-- C1: with an always-succeeding translation oracle, `translate_batch` on a
non-empty list of strings returns success, keeping exactly the entries that
are non-blank after stripping, in input order; in particular on
`["Hello", "", "World"]` it returns exactly the two entries for `"Hello"`
and `"World"`, in that order. -/
theorem batch_skips_blank_entries (trf : String → String)
    (items : List String) (h : items ≠ []) :
    translate_batch (okDep trf) (.list (items.map .str)) =
      (.ok ((items.filter fun s => strip s ≠ "").map fun s => ⟨s, trf s⟩),
       (items.filter fun s => strip s ≠ "").map fun s => .translate s) ∧
    translate_batch (okDep trf)
        (.list [.str "Hello", .str "", .str "World"]) =
      (.ok [⟨"Hello", trf "Hello"⟩, ⟨"World", trf "World"⟩],
       [.translate "Hello", .translate "World"]) := by
  constructor
  · have hm : ¬ items.map BatchItem.str = [] := by simpa using h
    simp [translate_batch, hm, batchLoop_all_ok]
  · rfl

/-- C1 witness: the concrete batch `["Hello", "", "World"]` with a concrete
oracle produces exactly the two entries, in input order. -/
theorem batch_skips_blank_entries_witness :
    translate_batch (okDep fun s => "K" ++ s)
        (.list [.str "Hello", .str "", .str "World"]) =
      (.ok [⟨"Hello", "KHello"⟩, ⟨"World", "KWorld"⟩],
       [.translate "Hello", .translate "World"]) := by
  have h := batch_skips_blank_entries (fun s => "K" ++ s)
    ["Hello", "", "World"] (by decide)
  exact h.2

/-- C4: if the translations of the `good` items succeed and the translation
of `bad` (non-blank after stripping) raises, `translate_batch` returns the
single 500 failure report with `success` false and no partial results, even
though the `good` items had already been translated (their calls are in the
trace). -/
theorem batch_item_failure_aborts_all (tr : TranslateDep)
    (trf : String → String) (good : List String) (bad : String)
    (rest : List BatchItem) (e : String)
    (hgood : ∀ s ∈ good, tr s = .ok (trf s))
    (hbad : tr bad = .error e) (hb : strip bad ≠ "") :
    translate_batch tr (.list (good.map .str ++ .str bad :: rest)) =
      (.failure 500 ("Batch translation failed: " ++ e),
       ((good.filter fun s => strip s ≠ "").map fun s => .translate s) ++
         [.translate bad]) ∧
    (translate_batch tr (.list (good.map .str ++ .str bad :: rest))).1.success
      = false := by
  have hm : ¬ good.map BatchItem.str ++ BatchItem.str bad :: rest = [] := by
    simp
  have h1 : translate_batch tr (.list (good.map .str ++ .str bad :: rest)) =
      (.failure 500 ("Batch translation failed: " ++ e),
       ((good.filter fun s => strip s ≠ "").map fun s => .translate s) ++
         [.translate bad]) := by
    simp [translate_batch, hm,
      batchLoop_ok_then_fail tr trf good bad rest e hgood hbad hb]
  exact ⟨h1, by rw [h1]; rfl⟩

/-- C4 witness: `["Hello", "Boom"]` where `"Boom"` fails: the 500 failure
report carries no partial results although `"Hello"` was translated. -/
theorem batch_item_failure_aborts_all_witness :
    translate_batch
        (fun s => if s = "Boom" then .error "network down" else .ok ("K" ++ s))
        (.list [.str "Hello", .str "Boom"]) =
      (.failure 500 "Batch translation failed: network down",
       [.translate "Hello", .translate "Boom"]) := by
  have h := batch_item_failure_aborts_all
    (fun s => if s = "Boom" then .error "network down" else .ok ("K" ++ s))
    (fun s => "K" ++ s) ["Hello"] "Boom" [] "network down"
    (by simp) (by rfl) (by decide)
  exact h.1

/-- C9: a non-string entry of `texts` passes the list validation, so the
batch fails with the 500 generic batch-failure response when its `.strip()`
raises, rather than being skipped or rejected as a 400; entries before it
were already translated. -/
theorem batch_nonstring_entry_fails_500 (tr : TranslateDep)
    (trf : String → String) (good : List String) (e : String)
    (rest : List BatchItem)
    (hgood : ∀ s ∈ good, tr s = .ok (trf s)) :
    translate_batch tr (.list (good.map .str ++ .nonStr e :: rest)) =
      (.failure 500 ("Batch translation failed: " ++ e),
       (good.filter fun s => strip s ≠ "").map fun s => .translate s) ∧
    (translate_batch tr (.list (good.map .str ++ .nonStr e :: rest))).1.status
      = 500 := by
  have hm : ¬ good.map BatchItem.str ++ BatchItem.nonStr e :: rest = [] := by
    simp
  have h1 : translate_batch tr (.list (good.map .str ++ .nonStr e :: rest)) =
      (.failure 500 ("Batch translation failed: " ++ e),
       (good.filter fun s => strip s ≠ "").map fun s => .translate s) := by
    simp [translate_batch, hm, batchLoop_nonstr tr trf good e rest hgood]
  exact ⟨h1, by rw [h1]; rfl⟩

/-- C9 witness: `texts = [42]`, i.e. a single non-string entry, fails with
the 500 generic batch failure and no external call. -/
theorem batch_nonstring_entry_fails_500_witness :
    translate_batch (okDep fun s => "K" ++ s)
        (.list [.nonStr "int object has no attribute strip"]) =
      (.failure 500
        "Batch translation failed: int object has no attribute strip",
       []) := by
  have h := batch_nonstring_entry_fails_500 (okDep fun s => "K" ++ s)
    (fun s => "K" ++ s) [] "int object has no attribute strip" []
    (by simp)
  exact h.1

/-- C10: a non-empty list whose entries are all blank after stripping makes
`translate_batch` return the 200 success with an empty `translations` list
and no external call; it is not a validation failure. -/
theorem batch_all_blank_returns_empty_success (tr : TranslateDep)
    (items : List String) (h : items ≠ [])
    (hall : ∀ s ∈ items, strip s = "") :
    translate_batch tr (.list (items.map .str)) = (.ok [], []) ∧
    (translate_batch tr (.list (items.map .str))).1.status = 200 ∧
    (translate_batch tr (.list (items.map .str))).1.success = true := by
  have hm : ¬ items.map BatchItem.str = [] := by simpa using h
  have h1 : translate_batch tr (.list (items.map .str)) = (.ok [], []) := by
    simp [translate_batch, hm, batchLoop_all_blank tr items hall]
  exact ⟨h1, by rw [h1]; rfl, by rw [h1]; rfl⟩

/-- C10 witness: `texts = ["", "  "]` yields the 200 success with an empty
result list and no calls. -/
theorem batch_all_blank_returns_empty_success_witness :
    translate_batch (okDep fun s => "K" ++ s)
        (.list [.str "", .str "  "]) = (.ok [], []) := by
  have h := batch_all_blank_returns_empty_success (okDep fun s => "K" ++ s)
    ["", "  "] (by decide) (by decide)
  exact h.1

/-- C8: after a successful translation, `voice_translate` attempts both
syntheses — English audio first, Kannada audio second, both present in the
call trace — writes each file exactly when its own synthesis succeeds, and
returns the 200 success response carrying both fixed URLs; the response and
the call trace are identical for any two synthesis oracles, so neither
synthesis failure aborts the other attempt or the response. -/
theorem voice_two_audio_attempts_independent (tr : TranslateDep)
    (tts tts2 : SynthDep) (text k : String)
    (hne : strip text ≠ "") (hlen : (strip text).length ≤ 500)
    (htr : tr (strip text) = .ok k) :
    voice_translate tr tts text =
      ⟨.ok (strip text) k "/static/english_audio.mp3"
        "/static/kannada_audio.mp3",
       [.translate (strip text), .synth (strip text) "en", .synth k "kn"],
       (match tts (strip text) "en" with
        | .ok _ => ["english_audio.mp3"] | .error _ => []) ++
       (match tts k "kn" with
        | .ok _ => ["kannada_audio.mp3"] | .error _ => [])⟩ ∧
    (voice_translate tr tts text).resp = (voice_translate tr tts2 text).resp ∧
    (voice_translate tr tts text).calls =
      (voice_translate tr tts2 text).calls ∧
    (voice_translate tr tts text).resp.status = 200 ∧
    (voice_translate tr tts text).resp.success = true := by
  have h5 : ¬ (strip text).length > 500 := by omega
  have hv : ∀ tts3 : SynthDep, voice_translate tr tts3 text =
      ⟨.ok (strip text) k "/static/english_audio.mp3"
        "/static/kannada_audio.mp3",
       [.translate (strip text), .synth (strip text) "en", .synth k "kn"],
       (match tts3 (strip text) "en" with
        | .ok _ => ["english_audio.mp3"] | .error _ => []) ++
       (match tts3 k "kn" with
        | .ok _ => ["kannada_audio.mp3"] | .error _ => [])⟩ := by
    intro tts3
    cases h1 : tts3 (strip text) "en" <;> cases h2 : tts3 k "kn" <;>
      simp [voice_translate, hne, h5, htr, h1, h2]
  refine ⟨hv tts, ?_, ?_, by rw [hv tts]; rfl, by rw [hv tts]; rfl⟩
  · rw [hv tts, hv tts2]
  · rw [hv tts, hv tts2]

/-- C8 witness: with English synthesis failing and Kannada synthesis
succeeding, the response still carries both fixed URLs, both attempts are in
the trace, and only the Kannada file was written. -/
theorem voice_two_audio_attempts_independent_witness :
    voice_translate (okDep fun s => "K" ++ s)
        (fun _ l => if l = "en" then .error "boom" else .ok ()) "Hello" =
      ⟨.ok "Hello" "KHello" "/static/english_audio.mp3"
        "/static/kannada_audio.mp3",
       [.translate "Hello", .synth "Hello" "en", .synth "KHello" "kn"],
       ["kannada_audio.mp3"]⟩ := by
  have h := voice_two_audio_attempts_independent (okDep fun s => "K" ++ s)
    (fun _ l => if l = "en" then .error "boom" else .ok ())
    (fun _ _ => .ok ()) "Hello" "KHello" (by decide) (by decide) (by rfl)
  have h1 := h.1
  rw [h1]
  rfl

end Translator
